import Mathlib

/-!
Verification of the NBA synthetic-data ingest repository.

The development shallowly embeds the three Python components:
  * `nba_ingest.py` (class `ComprehensiveNBAIngester`): season strings,
    team/legend tables, the team-override chain, stat synthesis, and the
    full generation loop;
  * `database_loader.py` (class `NBADatabaseLoader`): the file-to-table
    mapping and the `load_all_data` loop over an abstract directory/DB;
  * `run_complete_pipeline.py`: the four-step orchestrator.

Python strings are modelled at the code-point level (`String.mk` over
`List Char`), Python `str(int)` by an explicit base-10 digit expansion,
Python floats by `ℚ`, and Python `round(x, k)` by rounding `10^k * x`
to the nearest integer (Python uses round-half-even on floats; the
half-integer tie cases never matter for the inequalities proved here,
all of which hold for any round-to-nearest rule).
Randomness is modelled by explicit draw parameters: integer draws are
mapped into their `randint`/`choice` ranges by construction, real-valued
`random.uniform` draws are free `ℚ` parameters constrained by a `Valid`
predicate recording the uniform ranges from the source.
-/

/-! ## Python `str` on natural numbers, modelled at the digit level -/

/-- Fuel-driven digit accumulator: the digits of `n` (most significant
first) prepended to `acc`.  Structural in `fuel`, so it reduces in the
kernel. -/
def natDigitsCore : ℕ → ℕ → List ℕ → List ℕ
  | 0, _, acc => acc
  | fuel + 1, n, acc =>
    if n < 10 then n :: acc else natDigitsCore fuel (n / 10) (n % 10 :: acc)

/-- Base-10 digits of `n`, most significant first (`natDigits 1234 = [1,2,3,4]`). -/
def natDigits (n : ℕ) : List ℕ := natDigitsCore (n + 1) n []

/-- Reference version of `natDigits` by well-founded recursion, used for proofs. -/
def natDigitsWF (n : ℕ) : List ℕ :=
  if h : n < 10 then [n]
  else
    have : n / 10 < n := Nat.div_lt_self (by omega) (by norm_num)
    natDigitsWF (n / 10) ++ [n % 10]

theorem natDigitsCore_eq_wf (fuel : ℕ) : ∀ n acc, n < fuel →
    natDigitsCore fuel n acc = natDigitsWF n ++ acc := by
  induction fuel with
  | zero => intro n acc h; omega
  | succ f ih =>
    intro n acc h
    rw [natDigitsCore]
    by_cases h10 : n < 10
    · rw [if_pos h10, natDigitsWF, dif_pos h10]; rfl
    · rw [if_neg h10, natDigitsWF, dif_neg h10,
        ih (n / 10) (n % 10 :: acc) (by omega), List.append_assoc]
      rfl

theorem natDigits_eq_wf (n : ℕ) : natDigits n = natDigitsWF n := by
  rw [natDigits, natDigitsCore_eq_wf (n + 1) n [] (Nat.lt_succ_self n), List.append_nil]

theorem natDigits_lt10 {n : ℕ} (h : n < 10) : natDigits n = [n] := by
  rw [natDigits_eq_wf, natDigitsWF, dif_pos h]

theorem natDigits_two {n : ℕ} (h1 : 10 ≤ n) (h2 : n < 100) :
    natDigits n = [n / 10, n % 10] := by
  rw [natDigits_eq_wf, natDigitsWF, dif_neg (by omega)]
  rw [natDigitsWF, dif_pos (by omega)]
  rfl

theorem natDigits_four {n : ℕ} (h1 : 1000 ≤ n) (h2 : n < 10000) :
    natDigits n = [n / 1000, n / 100 % 10, n / 10 % 10, n % 10] := by
  rw [natDigits_eq_wf]
  rw [natDigitsWF, dif_neg (by omega)]
  rw [natDigitsWF, dif_neg (by omega)]
  rw [natDigitsWF, dif_neg (by omega)]
  rw [natDigitsWF, dif_pos (by omega)]
  have e1 : n / 10 / 10 / 10 = n / 1000 := by omega
  have e2 : n / 10 / 10 % 10 = n / 100 % 10 := by omega
  simp [e1, e2]

/-- Value of a digit list read in base 10. -/
def digitsVal (l : List ℕ) : ℕ := l.foldl (fun a d => 10 * a + d) 0

theorem digitsVal_append_singleton (l : List ℕ) (d : ℕ) :
    digitsVal (l ++ [d]) = 10 * digitsVal l + d := by
  simp [digitsVal, List.foldl_append]

theorem digitsVal_natDigits (n : ℕ) : digitsVal (natDigits n) = n := by
  rw [natDigits_eq_wf]
  induction n using Nat.strong_induction_on with
  | _ n ih =>
    rw [natDigitsWF]
    by_cases h : n < 10
    · rw [dif_pos h]; simp [digitsVal]
    · rw [dif_neg h, digitsVal_append_singleton,
        ih (n / 10) (Nat.div_lt_self (by omega) (by norm_num))]
      omega

theorem natDigits_injective : Function.Injective natDigits := by
  intro a b h
  have := digitsVal_natDigits a
  rw [h, digitsVal_natDigits] at this
  omega

theorem natDigits_all_lt10 (n : ℕ) : ∀ d ∈ natDigits n, d < 10 := by
  rw [natDigits_eq_wf]
  induction n using Nat.strong_induction_on with
  | _ n ih =>
    rw [natDigitsWF]
    by_cases h : n < 10
    · rw [dif_pos h]; simpa using h
    · rw [dif_neg h]
      intro d hd
      rcases List.mem_append.1 hd with hd | hd
      · exact ih (n / 10) (Nat.div_lt_self (by omega) (by norm_num)) d hd
      · simp at hd; omega

/-- The character of a decimal digit, as Python prints it. -/
def digitChar : ℕ → Char
  | 0 => '0' | 1 => '1' | 2 => '2' | 3 => '3' | 4 => '4'
  | 5 => '5' | 6 => '6' | 7 => '7' | 8 => '8' | 9 => '9'
  | _ => '*'

theorem digitChar_inj {a b : ℕ} (ha : a < 10) (hb : b < 10)
    (h : digitChar a = digitChar b) : a = b := by
  interval_cases a <;> interval_cases b <;> simp_all [digitChar]

theorem digitChar_ne_dash {a : ℕ} (ha : a < 10) : digitChar a ≠ '-' := by
  interval_cases a <;> simp [digitChar]

/-- Python `str(n)` for a natural number `n`. -/
def natStr (n : ℕ) : String := String.mk ((natDigits n).map digitChar)

theorem natStr_injective : Function.Injective natStr := by
  intro a b h
  apply natDigits_injective
  have hdata : (natDigits a).map digitChar = (natDigits b).map digitChar := by
    simpa [natStr] using congrArg String.data h
  have key : ∀ (l1 l2 : List ℕ), (∀ d ∈ l1, d < 10) → (∀ d ∈ l2, d < 10) →
      l1.map digitChar = l2.map digitChar → l1 = l2 := by
    intro l1
    induction l1 with
    | nil => intro l2 _ _ h; cases l2 <;> simp_all
    | cons x xs ih =>
      intro l2 h1 h2 h
      cases l2 with
      | nil => simp_all
      | cons y ys =>
        simp only [List.map_cons, List.cons.injEq] at h
        have hx := digitChar_inj (h1 x (by simp)) (h2 y (by simp)) h.1
        rw [hx, ih ys (fun d hd => h1 d (by simp [hd])) (fun d hd => h2 d (by simp [hd])) h.2]
  exact key _ _ (natDigits_all_lt10 a) (natDigits_all_lt10 b) hdata

theorem natStr_no_dash (n : ℕ) : ∀ c ∈ (natStr n).data, c ≠ '-' := by
  intro c hc
  simp only [natStr, List.mem_map] at hc
  obtain ⟨d, hd, rfl⟩ := hc
  exact digitChar_ne_dash (natDigits_all_lt10 n d hd)

/-- Python string slicing `s[k:]`, at the code-point level. -/
def strDrop (s : String) (k : ℕ) : String := String.mk (s.data.drop k)

/-- Python string concatenation, at the code-point level. -/
def strCat (s t : String) : String := String.mk (s.data ++ t.data)

/-! ## Season strings (`nba_ingest.py`, `__init__`)

Source: `self.seasons = [f"{year}-{str(year+1)[2:]}" for year in range(start_year, end_year + 1)]`. -/

/-- The season string for one year: `f"{year}-{str(year+1)[2:]}"`. -/
def seasonString (year : ℕ) : String :=
  strCat (strCat (natStr year) "-") (strDrop (natStr (year + 1)) 2)

/-- The inclusive year range `range(start_year, end_year + 1)`. -/
def yearRange (startYear endYear : ℕ) : List ℕ :=
  List.range' startYear (endYear + 1 - startYear)

/-- The list `self.seasons` built in `ComprehensiveNBAIngester.__init__`. -/
def seasonsList (startYear endYear : ℕ) : List String :=
  (yearRange startYear endYear).map seasonString

theorem seasonString_data (year : ℕ) :
    (seasonString year).data =
      (natDigits year).map digitChar ++
        '-' :: ((natDigits (year + 1)).map digitChar).drop 2 := by
  simp [seasonString, strCat, strDrop, natStr]

theorem append_dash_inj {l1 l2 r1 r2 : List Char}
    (h1 : ∀ c ∈ l1, c ≠ '-') (h2 : ∀ c ∈ l2, c ≠ '-')
    (h : l1 ++ '-' :: r1 = l2 ++ '-' :: r2) : l1 = l2 ∧ r1 = r2 := by
  induction l1 generalizing l2 with
  | nil =>
    cases l2 with
    | nil => simpa using h
    | cons y ys =>
      simp only [List.nil_append, List.cons_append, List.cons.injEq] at h
      exact absurd h.1.symm (h2 y (by simp))
  | cons x xs ih =>
    cases l2 with
    | nil =>
      simp only [List.nil_append, List.cons_append, List.cons.injEq] at h
      exact absurd h.1 (h1 x (by simp))
    | cons y ys =>
      simp only [List.cons_append, List.cons.injEq] at h
      have := ih (fun c hc => h1 c (by simp [hc])) (fun c hc => h2 c (by simp [hc])) h.2
      exact ⟨by rw [h.1, this.1], this.2⟩

theorem seasonString_injective : Function.Injective seasonString := by
  intro a b h
  have hd := congrArg String.data h
  rw [seasonString_data, seasonString_data] at hd
  have h1 : ∀ c ∈ (natDigits a).map digitChar, c ≠ '-' := by
    intro c hc; exact natStr_no_dash a c (by simpa [natStr] using hc)
  have h2 : ∀ c ∈ (natDigits b).map digitChar, c ≠ '-' := by
    intro c hc; exact natStr_no_dash b c (by simpa [natStr] using hc)
  have := (append_dash_inj h1 h2 hd).1
  exact natStr_injective (by simpa [natStr] using congrArg String.mk this)


/-! ## Claim C5: the claimed season-string format -/

/-- The format the claim asserts: the last two digits of `m`,
zero-padded to two digits (`"{m mod 100:02d}"` applied to `m < 100`). -/
def pad2 (m : ℕ) : String :=
  if m < 10 then String.mk ('0' :: (natDigits m).map digitChar) else natStr m

/-- The season string the claim asserts:
`"{year}-{(year+1) mod 100:02d}"`. -/
def claimedSeasonString (year : ℕ) : String :=
  strCat (strCat (natStr year) "-") (pad2 ((year + 1) % 100))

theorem seasonString_eq_claimed {year : ℕ} (h3 : 999 ≤ year) (h4 : year ≤ 9998) :
    seasonString year = claimedSeasonString year := by
  have hd4 := natDigits_four (show 1000 ≤ year + 1 by omega) (show year + 1 < 10000 by omega)
  have hm : (year + 1) % 100 = (year + 1) / 10 % 10 * 10 + (year + 1) % 10 := by omega
  have hsuffix : (strDrop (natStr (year + 1)) 2).data = (pad2 ((year + 1) % 100)).data := by
    simp only [strDrop, natStr, pad2]
    by_cases h0 : (year + 1) % 100 < 10
    · rw [if_pos h0]
      have hz : (year + 1) / 10 % 10 = 0 := by omega
      have h1 : (year + 1) % 100 = (year + 1) % 10 := by omega
      rw [hd4, h1, natDigits_lt10 (show (year + 1) % 10 < 10 by omega)]
      simp [hz, digitChar]
    · rw [if_neg h0]
      rw [hd4, natDigits_two (show 10 ≤ (year + 1) % 100 by omega) (show (year + 1) % 100 < 100 by omega)]
      have e1 : (year + 1) % 100 / 10 = (year + 1) / 10 % 10 := by omega
      have e2 : (year + 1) % 100 % 10 = (year + 1) % 10 := by omega
      simp [e1, e2]
  show strCat (strCat (natStr year) "-") (strDrop (natStr (year + 1)) 2) =
    strCat (strCat (natStr year) "-") (pad2 ((year + 1) % 100))
  simp only [strCat, hsuffix]

/-! ## Team and legend tables (`nba_ingest.py`, `__init__`) -/

/-- Descriptive attributes of a team, as in the `historical_teams` /
`modern_teams` dict values. -/
structure TeamInfo where
  name : String
  city : String
  conference : String
  division : String
deriving DecidableEq

/-- `self.historical_teams` (1980s-1990s): dict modelled as an association
list in insertion order. -/
def historicalTeams : List (String × TeamInfo) :=
  [("ATL", ⟨"Atlanta Hawks", "Atlanta", "Eastern", "Central"⟩),
   ("BOS", ⟨"Boston Celtics", "Boston", "Eastern", "Atlantic"⟩),
   ("CHI", ⟨"Chicago Bulls", "Chicago", "Eastern", "Central"⟩),
   ("CLE", ⟨"Cleveland Cavaliers", "Cleveland", "Eastern", "Central"⟩),
   ("DAL", ⟨"Dallas Mavericks", "Dallas", "Western", "Midwest"⟩),
   ("DEN", ⟨"Denver Nuggets", "Denver", "Western", "Midwest"⟩),
   ("DET", ⟨"Detroit Pistons", "Detroit", "Eastern", "Central"⟩),
   ("GSW", ⟨"Golden State Warriors", "San Francisco", "Western", "Pacific"⟩),
   ("HOU", ⟨"Houston Rockets", "Houston", "Western", "Midwest"⟩),
   ("IND", ⟨"Indiana Pacers", "Indianapolis", "Eastern", "Central"⟩),
   ("LAC", ⟨"LA Clippers", "Los Angeles", "Western", "Pacific"⟩),
   ("LAL", ⟨"Los Angeles Lakers", "Los Angeles", "Western", "Pacific"⟩),
   ("MIA", ⟨"Miami Heat", "Miami", "Eastern", "Atlantic"⟩),
   ("MIL", ⟨"Milwaukee Bucks", "Milwaukee", "Eastern", "Central"⟩),
   ("NJN", ⟨"New Jersey Nets", "East Rutherford", "Eastern", "Atlantic"⟩),
   ("NYK", ⟨"New York Knicks", "New York", "Eastern", "Atlantic"⟩),
   ("ORL", ⟨"Orlando Magic", "Orlando", "Eastern", "Atlantic"⟩),
   ("PHI", ⟨"Philadelphia 76ers", "Philadelphia", "Eastern", "Atlantic"⟩),
   ("PHX", ⟨"Phoenix Suns", "Phoenix", "Western", "Pacific"⟩),
   ("POR", ⟨"Portland Trail Blazers", "Portland", "Western", "Pacific"⟩),
   ("SAC", ⟨"Sacramento Kings", "Sacramento", "Western", "Pacific"⟩),
   ("SAS", ⟨"San Antonio Spurs", "San Antonio", "Western", "Midwest"⟩),
   ("SEA", ⟨"Seattle SuperSonics", "Seattle", "Western", "Pacific"⟩),
   ("UTA", ⟨"Utah Jazz", "Salt Lake City", "Western", "Midwest"⟩),
   ("WAS", ⟨"Washington Bullets", "Washington", "Eastern", "Atlantic"⟩)]

/-- `self.modern_teams` (2000s-2025). -/
def modernTeams : List (String × TeamInfo) :=
  [("ATL", ⟨"Atlanta Hawks", "Atlanta", "Eastern", "Southeast"⟩),
   ("BOS", ⟨"Boston Celtics", "Boston", "Eastern", "Atlantic"⟩),
   ("BKN", ⟨"Brooklyn Nets", "Brooklyn", "Eastern", "Atlantic"⟩),
   ("CHA", ⟨"Charlotte Hornets", "Charlotte", "Eastern", "Southeast"⟩),
   ("CHI", ⟨"Chicago Bulls", "Chicago", "Eastern", "Central"⟩),
   ("CLE", ⟨"Cleveland Cavaliers", "Cleveland", "Eastern", "Central"⟩),
   ("DAL", ⟨"Dallas Mavericks", "Dallas", "Western", "Southwest"⟩),
   ("DEN", ⟨"Denver Nuggets", "Denver", "Western", "Northwest"⟩),
   ("DET", ⟨"Detroit Pistons", "Detroit", "Eastern", "Central"⟩),
   ("GSW", ⟨"Golden State Warriors", "San Francisco", "Western", "Pacific"⟩),
   ("HOU", ⟨"Houston Rockets", "Houston", "Western", "Southwest"⟩),
   ("IND", ⟨"Indiana Pacers", "Indianapolis", "Eastern", "Central"⟩),
   ("LAC", ⟨"LA Clippers", "Los Angeles", "Western", "Pacific"⟩),
   ("LAL", ⟨"Los Angeles Lakers", "Los Angeles", "Western", "Pacific"⟩),
   ("MEM", ⟨"Memphis Grizzlies", "Memphis", "Western", "Southwest"⟩),
   ("MIA", ⟨"Miami Heat", "Miami", "Eastern", "Southeast"⟩),
   ("MIL", ⟨"Milwaukee Bucks", "Milwaukee", "Eastern", "Central"⟩),
   ("MIN", ⟨"Minnesota Timberwolves", "Minneapolis", "Western", "Northwest"⟩),
   ("NOP", ⟨"New Orleans Pelicans", "New Orleans", "Western", "Southwest"⟩),
   ("NYK", ⟨"New York Knicks", "New York", "Eastern", "Atlantic"⟩),
   ("OKC", ⟨"Oklahoma City Thunder", "Oklahoma City", "Western", "Northwest"⟩),
   ("ORL", ⟨"Orlando Magic", "Orlando", "Eastern", "Southeast"⟩),
   ("PHI", ⟨"Philadelphia 76ers", "Philadelphia", "Eastern", "Atlantic"⟩),
   ("PHX", ⟨"Phoenix Suns", "Phoenix", "Western", "Pacific"⟩),
   ("POR", ⟨"Portland Trail Blazers", "Portland", "Western", "Northwest"⟩),
   ("SAC", ⟨"Sacramento Kings", "Sacramento", "Western", "Pacific"⟩),
   ("SAS", ⟨"San Antonio Spurs", "San Antonio", "Western", "Southwest"⟩),
   ("TOR", ⟨"Toronto Raptors", "Toronto", "Eastern", "Atlantic"⟩),
   ("UTA", ⟨"Utah Jazz", "Salt Lake City", "Western", "Northwest"⟩),
   ("WAS", ⟨"Washington Wizards", "Washington", "Eastern", "Southeast"⟩)]

/-- One entry of `self.legendary_players`. -/
structure LegendInfo where
  name : String
  position : String
  teams : List String
  era : String
deriving DecidableEq

def legendary1980s : List LegendInfo :=
  [⟨"Magic Johnson", "PG", ["LAL"], "1980s"⟩,
   ⟨"Larry Bird", "SF", ["BOS"], "1980s"⟩,
   ⟨"Kareem Abdul-Jabbar", "C", ["LAL"], "1980s"⟩,
   ⟨"Isiah Thomas", "PG", ["DET"], "1980s"⟩,
   ⟨"Dominique Wilkins", "SF", ["ATL"], "1980s"⟩,
   ⟨"Julius Erving", "SF", ["PHI"], "1980s"⟩,
   ⟨"Moses Malone", "C", ["PHI"], "1980s"⟩,
   ⟨"James Worthy", "SF", ["LAL"], "1980s"⟩]

def legendary1990s : List LegendInfo :=
  [⟨"Michael Jordan", "SG", ["CHI"], "1990s"⟩,
   ⟨"Scottie Pippen", "SF", ["CHI"], "1990s"⟩,
   ⟨"Dennis Rodman", "PF", ["CHI", "DET"], "1990s"⟩,
   ⟨"Karl Malone", "PF", ["UTA"], "1990s"⟩,
   ⟨"John Stockton", "PG", ["UTA"], "1990s"⟩,
   ⟨"Hakeem Olajuwon", "C", ["HOU"], "1990s"⟩,
   ⟨"Charles Barkley", "PF", ["PHI", "PHX"], "1990s"⟩,
   ⟨"Patrick Ewing", "C", ["NYK"], "1990s"⟩,
   ⟨"David Robinson", "C", ["SAS"], "1990s"⟩,
   ⟨"Clyde Drexler", "SG", ["POR", "HOU"], "1990s"⟩]

def legendary2000s : List LegendInfo :=
  [⟨"Tim Duncan", "PF", ["SAS"], "2000s"⟩,
   ⟨"Kobe Bryant", "SG", ["LAL"], "2000s"⟩,
   ⟨"Shaquille O\x27Neal", "C", ["LAL", "MIA"], "2000s"⟩,
   ⟨"LeBron James", "SF", ["CLE"], "2000s"⟩,
   ⟨"Dwyane Wade", "SG", ["MIA"], "2000s"⟩,
   ⟨"Kevin Garnett", "PF", ["MIN", "BOS"], "2000s"⟩,
   ⟨"Dirk Nowitzki", "PF", ["DAL"], "2000s"⟩,
   ⟨"Steve Nash", "PG", ["PHX"], "2000s"⟩,
   ⟨"Tracy McGrady", "SG", ["HOU"], "2000s"⟩,
   ⟨"Vince Carter", "SG", ["TOR"], "2000s"⟩]

def legendary2010s : List LegendInfo :=
  [⟨"LeBron James", "SF", ["MIA", "CLE", "LAL"], "2010s"⟩,
   ⟨"Stephen Curry", "PG", ["GSW"], "2010s"⟩,
   ⟨"Kevin Durant", "SF", ["OKC", "GSW"], "2010s"⟩,
   ⟨"Russell Westbrook", "PG", ["OKC"], "2010s"⟩,
   ⟨"James Harden", "SG", ["HOU"], "2010s"⟩,
   ⟨"Chris Paul", "PG", ["LAC", "HOU"], "2010s"⟩,
   ⟨"Anthony Davis", "PF", ["NOP", "LAL"], "2010s"⟩,
   ⟨"Kawhi Leonard", "SF", ["SAS", "TOR", "LAC"], "2010s"⟩,
   ⟨"Paul George", "SF", ["IND", "OKC", "LAC"], "2010s"⟩,
   ⟨"Blake Griffin", "PF", ["LAC", "DET"], "2010s"⟩]

def legendary2020s : List LegendInfo :=
  [⟨"LeBron James", "SF", ["LAL"], "2020s"⟩,
   ⟨"Stephen Curry", "PG", ["GSW"], "2020s"⟩,
   ⟨"Kevin Durant", "SF", ["BKN", "PHX"], "2020s"⟩,
   ⟨"Giannis Antetokounmpo", "PF", ["MIL"], "2020s"⟩,
   ⟨"Luka Doncic", "PG", ["DAL"], "2020s"⟩,
   ⟨"Jayson Tatum", "SF", ["BOS"], "2020s"⟩,
   ⟨"Nikola Jokic", "C", ["DEN"], "2020s"⟩,
   ⟨"Joel Embiid", "C", ["PHI"], "2020s"⟩,
   ⟨"Anthony Davis", "PF", ["LAL"], "2020s"⟩,
   ⟨"Jimmy Butler", "SF", ["MIA"], "2020s"⟩]

/-- `get_teams_for_era`: years before 2000 use the historical table. -/
def getTeamsForEra (year : ℕ) : List (String × TeamInfo) :=
  if year < 2000 then historicalTeams else modernTeams

/-- `get_players_for_era`: legendary players gathered by inclusive era
buckets. -/
def getPlayersForEra (year : ℕ) : List LegendInfo :=
  (if 1980 ≤ year ∧ year ≤ 1989 then legendary1980s else []) ++
  (if 1990 ≤ year ∧ year ≤ 1999 then legendary1990s else []) ++
  (if 2000 ≤ year ∧ year ≤ 2009 then legendary2000s else []) ++
  (if 2010 ≤ year ∧ year ≤ 2019 then legendary2010s else []) ++
  (if 2020 ≤ year ∧ year ≤ 2025 then legendary2020s else [])

/-- `_get_team_for_player`: year-conditioned override chain, falling back
to the first entry of the player's possible-teams list. -/
def getTeamForPlayer (playerName : String) (possibleTeams : List String) (year : ℕ) : String :=
  if playerName = "LeBron James" then
    if year ≤ 2010 then "CLE"
    else if 2011 ≤ year ∧ year ≤ 2014 then "MIA"
    else if 2015 ≤ year ∧ year ≤ 2018 then "CLE"
    else "LAL"
  else if playerName = "Kevin Durant" then
    if year ≤ 2016 then "OKC"
    else if 2017 ≤ year ∧ year ≤ 2019 then "GSW"
    else if 2020 ≤ year ∧ year ≤ 2022 then "BKN"
    else "PHX"
  else if playerName = "Shaquille O\x27Neal" then
    if year ≤ 1996 then "ORL"
    else if 1997 ≤ year ∧ year ≤ 2004 then "LAL"
    else if 2005 ≤ year ∧ year ≤ 2008 then "MIA"
    else "PHX"
  else if playerName = "Dennis Rodman" then
    if year ≤ 1993 then "DET" else "CHI"
  else if playerName = "Charles Barkley" then
    if year ≤ 1992 then "PHI" else "PHX"
  else if playerName = "Clyde Drexler" then
    if year ≤ 1995 then "POR" else "HOU"
  else if playerName = "Russell Westbrook" then
    if year ≤ 2019 then "OKC"
    else if 2020 ≤ year ∧ year ≤ 2021 then "HOU"
    else if 2022 ≤ year ∧ year ≤ 2023 then "LAL"
    else "LAC"
  else if playerName = "James Harden" then
    if year ≤ 2012 then "OKC"
    else if 2013 ≤ year ∧ year ≤ 2020 then "HOU"
    else if 2021 ≤ year ∧ year ≤ 2022 then "BKN"
    else if 2023 ≤ year ∧ year ≤ 2024 then "PHI"
    else "LAC"
  else if playerName = "Chris Paul" then
    if year ≤ 2011 then "NOP"
    else if 2012 ≤ year ∧ year ≤ 2017 then "LAC"
    else if 2018 ≤ year ∧ year ≤ 2021 then "HOU"
    else if 2022 ≤ year ∧ year ≤ 2023 then "PHX"
    else "GSW"
  else if playerName = "Anthony Davis" then
    if year ≤ 2019 then "NOP" else "LAL"
  else if playerName = "Kawhi Leonard" then
    if year ≤ 2018 then "SAS"
    else if year = 2019 then "TOR"
    else "LAC"
  else if playerName = "Paul George" then
    if year ≤ 2017 then "IND"
    else if 2018 ≤ year ∧ year ≤ 2019 then "OKC"
    else "LAC"
  else if playerName = "Blake Griffin" then
    if year ≤ 2018 then "LAC" else "DET"
  else if playerName = "Kevin Garnett" then
    if year ≤ 2007 then "MIN" else "BOS"
  else if playerName = "Damian Lillard" then
    if year ≤ 2023 then "POR" else "MIL"
  else possibleTeams.headD ""

/-! ## Randomness model -/

/-- `random.randint(lo, hi)` (inclusive), with the raw draw mapped into
range by construction; every value of the range is reachable. -/
def randint (lo hi raw : ℕ) : ℕ := lo + raw % (hi + 1 - lo)

/-- `random.choice(l)`, with the raw draw mapped into range. -/
def choose (l : List α) (dflt : α) (raw : ℕ) : α := l.getD (raw % l.length) dflt

/-! ## Statistic synthesis (`_generate_era_appropriate_stats`) -/

/-- One entry of the `position_bases` dict.  `PG`/`SG`/`SF` rows carry a
`steals` key and no `blocks` key; `PF`/`C` rows carry `blocks` and no
`steals`; absent keys are `none` (Python `dict.get` default applies). -/
structure PositionBase where
  points : ℚ
  assists : ℚ
  rebounds : ℚ
  steals : Option ℚ
  blocks : Option ℚ
deriving DecidableEq

/-- `position_bases` with the `position_bases['SF']` fallback of
`position_bases.get(position, position_bases['SF'])`. -/
def positionBases (position : String) : PositionBase :=
  if position = "PG" then ⟨12, 6, 3, some (12/10), none⟩
  else if position = "SG" then ⟨14, 3, 4, some 1, none⟩
  else if position = "SF" then ⟨13, 3, 5, some (11/10), none⟩
  else if position = "PF" then ⟨12, 2, 7, none, some (8/10)⟩
  else if position = "C" then ⟨11, 1, 8, none, some (12/10)⟩
  else ⟨13, 3, 5, some (11/10), none⟩

/-- The superstar adjustment block: four name-list classes mutating the
(call-local) base record. -/
def superstarAdjust (playerName : String) (base : PositionBase) : PositionBase :=
  if playerName ∈ ["Michael Jordan", "LeBron James", "Kobe Bryant", "Kevin Durant",
      "Giannis Antetokounmpo", "Luka Doncic"] then
    { base with
        points := base.points * 2
        assists := base.assists * (15/10)
        rebounds := base.rebounds * (13/10) }
  else if playerName ∈ ["Magic Johnson", "Stephen Curry", "Damian Lillard", "Trae Young"] then
    { base with assists := base.assists * 2, points := base.points * (17/10) }
  else if playerName ∈ ["Shaquille O\x27Neal", "Hakeem Olajuwon", "David Robinson",
      "Nikola Jokic", "Joel Embiid"] then
    { base with
        rebounds := base.rebounds * (16/10)
        blocks := some ((base.blocks.getD 0) * (25/10))
        points := base.points * (15/10) }
  else if playerName ∈ ["Dennis Rodman", "Ben Wallace"] then
    { base with rebounds := base.rebounds * (25/10), points := base.points * (7/10) }
  else base

/-- One entry of the `era_multipliers` dict. -/
structure EraMult where
  points : ℚ
  assists : ℚ
  rebounds : ℚ
  three_pct : ℚ
deriving DecidableEq

/-- The `era_multipliers` dict literal, rebuilt on every call of
`_generate_era_appropriate_stats`; lookups fall back to the `'regular'`
entry (`era_multipliers.get(era, era_multipliers['regular'])`). -/
def eraMultTable (era : String) : EraMult :=
  if era = "1980s" then ⟨9/10, 11/10, 1, 3/10⟩
  else if era = "1990s" then ⟨1, 1, 1, 4/10⟩
  else if era = "2000s" then ⟨1, 1, 1, 5/10⟩
  else if era = "2010s" then ⟨11/10, 1, 95/100, 7/10⟩
  else if era = "2020s" then ⟨12/10, 11/10, 9/10, 8/10⟩
  else ⟨1, 1, 1, 5/10⟩

/-- The era multiplier actually in effect for a call: the table entry,
with the `year >= 2020` in-place adjustment
(`era_mult['points'] *= 1.2; era_mult['three_pct'] = 0.8`) applied to the
call-local copy. -/
def effEraMult (era : String) (year : ℕ) : EraMult :=
  let m := eraMultTable era
  if 2020 ≤ year then { m with points := m.points * (12/10), three_pct := 8/10 }
  else m

/-- Python `round(x, 1)` over `ℚ` (round to nearest; see file header on ties). -/
def round1 (x : ℚ) : ℚ := (round (10 * x) : ℤ) / 10

/-- Python `round(x, 3)` over `ℚ`. -/
def round3 (x : ℚ) : ℚ := (round (1000 * x) : ℤ) / 1000

/-- The raw random draws consumed by one call of
`_generate_era_appropriate_stats`: one field per `random.*` call site. -/
structure StatDraws where
  gpRaw : ℕ
  gsRaw : ℕ
  minutes : ℚ
  ptsJit : ℚ
  astJit : ℚ
  rebJit : ℚ
  fgPct : ℚ
  threeBase : ℚ
  ftPct : ℚ
  stlJit : ℚ
  blkJit : ℚ
  tov : ℚ
  pf : ℚ
deriving DecidableEq

/-- The uniform ranges of the `random.uniform` call sites in
`_generate_era_appropriate_stats`. -/
def StatDraws.Valid (d : StatDraws) : Prop :=
  25 ≤ d.minutes ∧ d.minutes ≤ 40 ∧
  8/10 ≤ d.ptsJit ∧ d.ptsJit ≤ 14/10 ∧
  7/10 ≤ d.astJit ∧ d.astJit ≤ 14/10 ∧
  8/10 ≤ d.rebJit ∧ d.rebJit ≤ 13/10 ∧
  40/100 ≤ d.fgPct ∧ d.fgPct ≤ 55/100 ∧
  25/100 ≤ d.threeBase ∧ d.threeBase ≤ 45/100 ∧
  70/100 ≤ d.ftPct ∧ d.ftPct ≤ 90/100 ∧
  6/10 ≤ d.stlJit ∧ d.stlJit ≤ 14/10 ∧
  4/10 ≤ d.blkJit ∧ d.blkJit ≤ 22/10 ∧
  18/10 ≤ d.tov ∧ d.tov ≤ 42/10 ∧
  18/10 ≤ d.pf ∧ d.pf ≤ 38/10

instance (d : StatDraws) : Decidable d.Valid := by
  unfold StatDraws.Valid; infer_instance

/-- The per-game stat dict returned by `_generate_era_appropriate_stats`. -/
structure Stats where
  games_played : ℕ
  games_started : ℕ
  minutes_per_game : ℚ
  field_goals_made : ℚ
  field_goals_attempted : ℚ
  field_goal_percentage : ℚ
  three_pointers_made : ℚ
  three_pointers_attempted : ℚ
  three_point_percentage : ℚ
  free_throws_made : ℚ
  free_throws_attempted : ℚ
  free_throw_percentage : ℚ
  offensive_rebounds : ℚ
  defensive_rebounds : ℚ
  total_rebounds : ℚ
  assists : ℚ
  steals : ℚ
  blocks : ℚ
  turnovers : ℚ
  personal_fouls : ℚ
  points : ℚ
deriving DecidableEq

/-- `_generate_era_appropriate_stats(player_name, position, year, era)`,
as a pure function of the call arguments and the call's random draws. -/
def genStats (playerName position : String) (year : ℕ) (era : String)
    (d : StatDraws) : Stats :=
  let base := superstarAdjust playerName (positionBases position)
  let eraMult := effEraMult era year
  let games_played := randint 65 82 d.gpRaw
  let points := max (1/10) (base.points * eraMult.points * d.ptsJit)
  let assists := max (1/10) (base.assists * eraMult.assists * d.astJit)
  let rebounds := max (1/10) (base.rebounds * eraMult.rebounds * d.rebJit)
  let fg_pct := d.fgPct
  let three_pct := d.threeBase * eraMult.three_pct
  let ft_pct := d.ftPct
  { games_played := games_played
    games_started := randint (games_played / 2) games_played d.gsRaw
    minutes_per_game := round1 d.minutes
    field_goals_made := round1 (points * (38/100))
    field_goals_attempted := round1 ((points * (38/100)) / fg_pct)
    field_goal_percentage := round3 fg_pct
    three_pointers_made := round1 (points * (15/100))
    three_pointers_attempted := round1 ((points * (15/100)) / three_pct)
    three_point_percentage := round3 three_pct
    free_throws_made := round1 (points * (22/100))
    free_throws_attempted := round1 ((points * (22/100)) / ft_pct)
    free_throw_percentage := round3 ft_pct
    offensive_rebounds := round1 (rebounds * (25/100))
    defensive_rebounds := round1 (rebounds * (75/100))
    total_rebounds := round1 rebounds
    assists := round1 assists
    steals := round1 ((base.steals.getD 1) * d.stlJit)
    blocks := round1 ((base.blocks.getD (5/10)) * d.blkJit)
    turnovers := round1 d.tov
    personal_fouls := round1 d.pf
    points := round1 points }

/-! ## Generated rows (`generate_comprehensive_data`) -/

/-- One element of `all_teams`, field order as in the appended dict. -/
structure TeamRow where
  team_id : ℕ
  team_name : String
  team_abbreviation : String
  team_city : String
  conference : String
  division : String
  season : String
deriving DecidableEq

/-- One element of `all_players`. -/
structure PlayerRow where
  player_id : ℕ
  player_name : String
  team_id : ℕ
  team_abbreviation : String
  jersey_number : String
  position : String
  height : String
  weight : String
  age : ℕ
  college : String
  country : String
  draft_year : ℕ
  draft_round : ℕ
  draft_number : ℕ
  season : String
deriving DecidableEq

/-- One element of `all_stats`: the id/name/season/team/per-mode header
fields plus the dict produced by `_generate_era_appropriate_stats`
(spliced in with `**stats` in the source; kept as a nested record here). -/
structure StatRow where
  player_id : ℕ
  player_name : String
  season : String
  team_id : ℕ
  team_abbreviation : String
  per_mode : String
  stats : Stats
deriving DecidableEq

/-- Raw draws for the player-attribute `random.*` calls of one appended
player record. -/
structure AttrDraws where
  jersey : ℕ
  heightFt : ℕ
  heightIn : ℕ
  weight : ℕ
  age : ℕ
  college : ℕ
  country : ℕ
  draftYear : ℕ
  draftRound : ℕ
  draftNumber : ℕ
deriving DecidableEq

/-- Raw draws for the name/position/team choices of one filler player. -/
structure ExtraPick where
  firstName : ℕ
  lastName : ℕ
  position : ℕ
  team : ℕ
deriving DecidableEq

/-- All random draws of one generation run.  The source consumes one
global unseeded stream; here each call site is keyed by its loop indices
(season year, running player counter), which covers every outcome the
stream can produce. -/
structure Draws where
  numExtraRaw : ℕ → ℕ
  attr : ℕ → AttrDraws
  statDraws : ℕ → StatDraws
  extraPick : ℕ → ℕ → ExtraPick

def firstNames : List String :=
  ["Alex", "Marcus", "Devin", "Tyler", "Jordan", "Mason", "Logan", "Ethan",
   "Noah", "Liam", "James", "Michael", "David", "Chris", "Kevin"]

def lastNames : List String :=
  ["Johnson", "Williams", "Brown", "Jones", "Garcia", "Miller", "Davis",
   "Rodriguez", "Martinez", "Wilson", "Smith", "Anderson", "Taylor",
   "Thomas", "Jackson"]

def colleges : List String :=
  ["Duke", "Kentucky", "North Carolina", "UCLA", "Kansas", "Michigan State"]

def countries : List String :=
  ["USA", "Canada", "France", "Germany", "Australia", "Spain"]

/-- The team rows appended for one season: one row per dict entry, ids
assigned from the running `team_id_counter`. -/
def mkTeamRows (season : String) : ℕ → List (String × TeamInfo) → List TeamRow
  | _, [] => []
  | tid, (ab, info) :: rest =>
    ⟨tid, info.name, ab, info.city, info.conference, info.division, season⟩ ::
      mkTeamRows season (tid + 1) rest

/-- The `team_id` lookup loop: first row of `all_teams` matching
abbreviation and season. -/
def findTeamId (teams : List TeamRow) (ab season : String) : Option ℕ :=
  match teams.find? (fun t => t.team_abbreviation == ab && t.season == season) with
  | some t => some t.team_id
  | none => none

/-- One appended player dict.  The legend and filler branches build the
same literal except for the `age` range (22-38 vs 20-35), passed here as
`ageLo`/`ageHi`. -/
def mkPlayerRow (a : AttrDraws) (pid : ℕ) (playerName : String) (tid : ℕ)
    (ab position : String) (ageLo ageHi year : ℕ) (season : String) : PlayerRow :=
  { player_id := pid
    player_name := playerName
    team_id := tid
    team_abbreviation := ab
    jersey_number := natStr (randint 0 99 a.jersey)
    position := position
    height := strCat (strCat (natStr (randint 6 7 a.heightFt)) "-") (natStr (randint 0 11 a.heightIn))
    weight := natStr (randint 180 280 a.weight)
    age := randint ageLo ageHi a.age
    college := choose colleges "" a.college
    country := choose countries "" a.country
    draft_year := randint (max 1975 (year - 20)) year a.draftYear
    draft_round := randint 1 2 a.draftRound
    draft_number := randint 1 60 a.draftNumber
    season := season }

/-- One appended stat dict (header fields plus `**stats`). -/
def mkStatRow (d : Draws) (pid : ℕ) (playerName : String) (season : String)
    (tid : ℕ) (ab position : String) (year : ℕ) (era : String) : StatRow :=
  { player_id := pid
    player_name := playerName
    season := season
    team_id := tid
    team_abbreviation := ab
    per_mode := "PerGame"
    stats := genStats playerName position year era (d.statDraws pid) }

/-- The mutable loop state of `generate_comprehensive_data`. -/
structure GenSt where
  teamCounter : ℕ
  playerCounter : ℕ
  teams : List TeamRow
  players : List PlayerRow
  stats : List StatRow

/-- Body of the legendary-player loop: resolve the team, skip the player
when no team row matches (`continue`), otherwise append a player and a
stat row and advance the player counter. -/
def addLegend (d : Draws) (season : String) (year : ℕ) (tAll : List TeamRow)
    (st : GenSt) (leg : LegendInfo) : GenSt :=
  let ab := getTeamForPlayer leg.name leg.teams year
  match findTeamId tAll ab season with
  | none => st
  | some tid =>
    { st with
        players := st.players ++
          [mkPlayerRow (d.attr st.playerCounter) st.playerCounter leg.name tid ab
            leg.position 22 38 year season]
        stats := st.stats ++
          [mkStatRow d st.playerCounter leg.name season tid ab leg.position year leg.era]
        playerCounter := st.playerCounter + 1 }

/-- Body of the filler-player loop (one iteration `i` of
`range(num_extra_players)`). -/
def addExtra (d : Draws) (season : String) (year : ℕ) (tAll : List TeamRow)
    (eraKeys : List String) (st : GenSt) (i : ℕ) : GenSt :=
  let pick := d.extraPick year i
  let playerName := strCat (strCat (choose firstNames "" pick.firstName) " ")
    (choose lastNames "" pick.lastName)
  let position := choose ["PG", "SG", "SF", "PF", "C"] "" pick.position
  let ab := choose eraKeys "" pick.team
  match findTeamId tAll ab season with
  | none => st
  | some tid =>
    { st with
        players := st.players ++
          [mkPlayerRow (d.attr st.playerCounter) st.playerCounter playerName tid ab
            position 20 35 year season]
        stats := st.stats ++
          [mkStatRow d st.playerCounter playerName season tid ab position year "regular"]
        playerCounter := st.playerCounter + 1 }

/-- One iteration of the per-season loop of `generate_comprehensive_data`. -/
def processSeason (d : Draws) (st : GenSt) (year : ℕ) : GenSt :=
  let season := seasonString year
  let teamsDict := getTeamsForEra year
  let newTeams := mkTeamRows season st.teamCounter teamsDict
  let st1 : GenSt :=
    { st with
        teams := st.teams ++ newTeams
        teamCounter := st.teamCounter + teamsDict.length }
  let st2 := (getPlayersForEra year).foldl (addLegend d season year st1.teams) st1
  let numExtra := randint 40 80 (d.numExtraRaw year)
  (List.range numExtra).foldl (addExtra d season year st1.teams (teamsDict.map Prod.fst)) st2

/-- The accumulated lists after the season loop, starting from
`team_id_counter = 1`, `player_id_counter = 1` and empty lists. -/
def generateRaw (startYear endYear : ℕ) (d : Draws) : GenSt :=
  (yearRange startYear endYear).foldl (processSeason d) ⟨1, 1, [], [], []⟩

/-- `pandas.DataFrame.drop_duplicates(subset=...)`: keep each row whose
key was not seen earlier (first occurrence wins). -/
def dropDupsBy [DecidableEq κ] (key : α → κ) : List α → List κ → List α
  | [], _ => []
  | x :: xs, seen =>
    if key x ∈ seen then dropDupsBy key xs seen
    else x :: dropDupsBy key xs (key x :: seen)

/-- The three outputs of `generate_comprehensive_data`. -/
structure GenOut where
  teams : List TeamRow
  players : List PlayerRow
  stats : List StatRow

/-- `generate_comprehensive_data(self)`: the season loop followed by the
`drop_duplicates` calls on `(team_id, season)` and `(player_id, season)`. -/
def generateData (startYear endYear : ℕ) (d : Draws) : GenOut :=
  let st := generateRaw startYear endYear d
  { teams := dropDupsBy (fun t => (t.team_id, t.season)) st.teams []
    players := dropDupsBy (fun p => (p.player_id, p.season)) st.players []
    stats := st.stats }

/-! ## Database loader (`database_loader.py`) -/

/-- The three destination tables of the `nba` schema. -/
inductive DbTable
  | players
  | playerSeasonStats
  | teams
deriving DecidableEq

/-- `file_mappings` in `load_all_data`, in dict insertion order. -/
def fileMappings : List (String × DbTable) :=
  [("players_all_seasons.csv", DbTable.players),
   ("player_stats_per_game.csv", DbTable.playerSeasonStats),
   ("player_stats_totals.csv", DbTable.playerSeasonStats),
   ("player_stats_per_36.csv", DbTable.playerSeasonStats),
   ("teams_all_seasons.csv", DbTable.teams)]

/-- The five mapped source file names. -/
def mappedFileNames : List String := fileMappings.map Prod.fst

/-- A data directory, abstracted to what `load_all_data` observes per
file name: `none` when `os.path.exists` is false, `some none` when the
file is present but `load_csv_to_table` fails, `some (some n)` when it
is present and loads `n` rows.  The directory is unchanged between runs,
so the observation is a function of the name. -/
def CsvDir := String → Option (Option ℕ)

/-- Row counts of the destination tables. -/
def DbCounts := DbTable → ℕ

/-- The zero-row database. -/
def emptyDb : DbCounts := fun _ => 0

/-- `load_csv_to_table`: on success append the file's rows to the
destination table and report `True`; on failure leave the table
unchanged and report `False`. -/
def loadCsvToTable (outcome : Option ℕ) (table : DbTable) (db : DbCounts) :
    DbCounts × Bool :=
  match outcome with
  | none => (db, false)
  | some n => (fun t => if t = table then db t + n else db t, true)


/-- State returned by the per-file loop: final counts, `success_count`,
`total_files`, and the list of attempted (present) files. -/
structure LoopRes where
  db : DbCounts
  sc : ℕ
  tf : ℕ
  att : List String

/-- The per-file loop of `load_all_data`: skip absent files with only a
warning, otherwise attempt the load and tally `success_count` and
`total_files`; a failed file does not stop the loop. -/
def loadLoop (dir : CsvDir) : List (String × DbTable) → DbCounts → LoopRes
  | [], db => ⟨db, 0, 0, []⟩
  | (f, table) :: rest, db =>
    match dir f with
    | none => loadLoop dir rest db
    | some outcome =>
      let r1 := loadCsvToTable outcome table db
      let r2 := loadLoop dir rest r1.1
      ⟨r2.db, r2.sc + (if r1.2 then 1 else 0), r2.tf + 1, f :: r2.att⟩

/-- Result of one `load_all_data` run. -/
structure LoadResult where
  db : DbCounts
  ok : Bool
  attempted : List String

/-- `load_all_data(data_directory, clear_existing)`: connect, create the
schema, optionally truncate the three tables, run the per-file loop, and
return `success_count == total_files`.  `connectOk`/`schemaOk` abstract
the fallible `connect()` and `create_schema()` steps; either failing
returns `False` with the database untouched. -/
def loadAllData (connectOk schemaOk clearExisting : Bool) (dir : CsvDir)
    (db : DbCounts) : LoadResult :=
  if !connectOk then ⟨db, false, []⟩
  else if !schemaOk then ⟨db, false, []⟩
  else
    let db1 := if clearExisting then emptyDb else db
    let r := loadLoop dir fileMappings db1
    ⟨r.db, r.sc == r.tf, r.att⟩

/-- Whether `load_all_data` would load file `f` successfully from `dir`. -/
def loadedOk (dir : CsvDir) (f : String) : Bool :=
  match dir f with
  | some (some _) => true
  | _ => false

/-- Whether file `f` is present in `dir` (`os.path.exists`). -/
def present (dir : CsvDir) (f : String) : Bool := (dir f).isSome

/-- The directory written by `save_data` (both `data/` and
`data/postgres_ready/` receive the same three file names); each file
holds the corresponding generated row count. -/
def savedFiles : List String :=
  ["teams_all_seasons.csv", "players_all_seasons.csv", "player_season_stats.csv"]

/-- A generator output directory: the three saved files are present and
load their row counts; nothing else exists. -/
def genOutputDir (teamRows playerRows statRows : ℕ) : CsvDir := fun f =>
  if f = "teams_all_seasons.csv" then some (some teamRows)
  else if f = "players_all_seasons.csv" then some (some playerRows)
  else if f = "player_season_stats.csv" then some (some statRows)
  else none

/-! ## Orchestrator (`run_complete_pipeline.py`) -/

/-- `main()` of the orchestrator, as a function of the four step
outcomes (each `run_command` result): returns the boolean `main` result
and the list of steps that were executed.  Steps 1-3 return `False`
immediately on failure; a step-4 failure is only logged as a warning and
`main` still returns `True`. -/
def pipelineMain (s1 s2 s3 s4 : Bool) : Bool × List ℕ :=
  if !s1 then (false, [1])
  else if !s2 then (false, [1, 2])
  else if !s3 then (false, [1, 2, 3])
  else (true, [1, 2, 3, 4])

/-- `sys.exit(0 if success else 1)`. -/
def exitCode (success : Bool) : ℕ := if success then 0 else 1

/-! ## Loader lemmas -/

theorem loadLoop_spec (dir : CsvDir) :
    ∀ (l : List (String × DbTable)) (db : DbCounts),
      ((loadLoop dir l db).sc = (loadLoop dir l db).tf ↔
        ∀ p ∈ l, present dir p.1 = true → loadedOk dir p.1 = true) ∧
      (loadLoop dir l db).sc ≤ (loadLoop dir l db).tf ∧
      (loadLoop dir l db).att =
        (l.filter (fun p => present dir p.1)).map Prod.fst := by
  intro l
  induction l with
  | nil => intro db; simp [loadLoop]
  | cons p rest ih =>
    intro db
    obtain ⟨f, table⟩ := p
    simp only [loadLoop]
    rcases hdf : dir f with _ | outcome
    · have hp : present dir f = false := by simp [present, hdf]
      have hrest := ih db
      simp only [List.mem_cons, List.filter_cons, hp]
      refine ⟨?_, hrest.2.1, by simpa using hrest.2.2⟩
      rw [hrest.1]
      constructor
      · intro h q hq
        rcases hq with rfl | hq
        · intro hpq; rw [hp] at hpq; exact absurd hpq (by simp)
        · exact h q hq
      · intro h q hq; exact h q (Or.inr hq)
    · have hp : present dir f = true := by simp [present, hdf]
      have hok : loadedOk dir f = (loadCsvToTable outcome table db).2 := by
        cases outcome <;> simp [loadedOk, hdf, loadCsvToTable]
      have hrest := ih (loadCsvToTable outcome table db).1
      simp only [List.mem_cons, List.filter_cons, hp, if_pos]
      refine ⟨?_, ?_, ?_⟩
      · constructor
        · intro h q hq
          rcases hq with rfl | hq
          · intro _
            rw [hok]
            by_contra hbad
            simp only [Bool.not_eq_true] at hbad
            rw [hbad, if_neg (by simp)] at h
            omega
          · refine (hrest.1.mp ?_) q hq
            rcases hb : (loadCsvToTable outcome table db).2 with _ | _ <;> rw [hb] at h
            · rw [if_neg (by simp)] at h; omega
            · rw [if_pos rfl] at h
              have := hrest.2.1
              omega
        · intro h
          have h1 : (loadCsvToTable outcome table db).2 = true := by
            rw [← hok]; exact h (f, table) (Or.inl rfl) hp
          have h2 : (loadLoop dir rest (loadCsvToTable outcome table db).1).sc =
              (loadLoop dir rest (loadCsvToTable outcome table db).1).tf :=
            hrest.1.mpr (fun q hq => h q (Or.inr hq))
          rw [h1, h2, if_pos rfl]
      · rcases (loadCsvToTable outcome table db).2 with _ | _
        · rw [if_neg (by simp)]
          have := hrest.2.1
          omega
        · rw [if_pos rfl]
          have := hrest.2.1
          omega
      · simp [hrest.2.2]

/-- A directory with no files at all. -/
def emptyDir : CsvDir := fun _ => none

/-- Claim C1 counterexample: with connectivity and schema fine,
`load_all_data` over a directory missing all five mapped files returns
overall success (`0 == 0`), yet no mapped file was loaded — the claim's
"a mapped file that is absent from the directory makes the overall
result failure" is false of the code. -/
theorem C1_counterexample :
    (loadAllData true true true emptyDir emptyDb).ok = true ∧
    ¬ (∀ f ∈ mappedFileNames, loadedOk emptyDir f = true) := by
  constructor
  · rfl
  · intro h
    have := h "players_all_seasons.csv" (by simp [mappedFileNames, fileMappings])
    simp [loadedOk, emptyDir] at this

/-- Claim C1 (amended): with connectivity and schema checks passing, a
`load_all_data` run succeeds iff every mapped file that is PRESENT in
the directory loads successfully; absent mapped files are skipped with a
warning and do not affect the result, and every present mapped file is
attempted regardless of earlier files' failures (per-file failures are
isolated). -/
theorem C1_load_success_iff_present_files_ok (clearExisting : Bool)
    (dir : CsvDir) (db : DbCounts) :
    ((loadAllData true true clearExisting dir db).ok = true ↔
      ∀ f ∈ mappedFileNames, present dir f = true → loadedOk dir f = true) ∧
    (loadAllData true true clearExisting dir db).attempted =
      (fileMappings.filter (fun p => present dir p.1)).map Prod.fst := by
  have hspec := loadLoop_spec dir fileMappings (if clearExisting then emptyDb else db)
  constructor
  · simp only [loadAllData, Bool.not_true, Bool.false_eq_true, if_false, beq_iff_eq]
    rw [hspec.1]
    constructor
    · intro h f hf hp
      simp only [mappedFileNames, List.mem_map] at hf
      obtain ⟨q, hq, rfl⟩ := hf
      exact h q hq hp
    · intro h q hq hp
      exact h q.1 (by simp only [mappedFileNames, List.mem_map]; exact ⟨q, hq, rfl⟩) hp
  · simp only [loadAllData, Bool.not_true, Bool.false_eq_true, if_false]
    exact hspec.2.2

/-- Claim C2 counterexample: when the first three steps succeed and the
step-4 verification fails, the orchestrator still returns success and
the process exits 0, contradicting "the failure of any one of the four
steps ... makes the process exit with a non-zero status". -/
theorem C2_counterexample :
    exitCode (pipelineMain true true true false).1 = 0 ∧
    (pipelineMain true true true false).2 = [1, 2, 3, 4] := by
  decide

/-- Claim C2 (amended): the run is the four-step sequence; failure of
any of the FIRST THREE steps (connectivity, generate, load) halts the
pipeline at that step (later steps are not executed) and exits non-zero,
while a step-4 (verify counts) failure is only logged as a warning and
the exit status is 0 whenever steps 1-3 succeeded. -/
theorem C2_pipeline_exit_and_halting (s1 s2 s3 s4 : Bool) :
    (exitCode (pipelineMain s1 s2 s3 s4).1 = 0 ↔ (s1 && s2 && s3) = true) ∧
    ((1 : ℕ) ∈ (pipelineMain s1 s2 s3 s4).2) ∧
    ((2 : ℕ) ∈ (pipelineMain s1 s2 s3 s4).2 ↔ s1 = true) ∧
    ((3 : ℕ) ∈ (pipelineMain s1 s2 s3 s4).2 ↔ (s1 && s2) = true) ∧
    ((4 : ℕ) ∈ (pipelineMain s1 s2 s3 s4).2 ↔ (s1 && s2 && s3) = true) := by
  cases s1 <;> cases s2 <;> cases s3 <;> cases s4 <;> decide

/-- Claim C4: the generator's stat output file `player_season_stats.csv`
(written by `save_data` to both output locations) is not a key of the
loader's `file_mappings`; loading a generator output directory therefore
inserts zero rows into the `player_season_stats` destination table. -/
theorem C4_generated_stats_file_not_loaded (teamRows playerRows statRows : ℕ)
    (db : DbCounts) :
    ("player_season_stats.csv" ∈ savedFiles ∧
      "player_season_stats.csv" ∉ mappedFileNames) ∧
    (loadAllData true true true (genOutputDir teamRows playerRows statRows) db).db
      DbTable.playerSeasonStats = 0 := by
  refine ⟨⟨by decide, by decide⟩, ?_⟩
  rfl

/-- Claim C10: running `load_all_data` with `clear_existing=true` twice
over the same unchanged directory leaves identical final counts in each
destination table (idempotent full-refresh); this also holds when the
connect or schema step fails, since then the database is untouched. -/
theorem C10_load_idempotent (connectOk schemaOk : Bool) (dir : CsvDir)
    (db : DbCounts) (t : DbTable) :
    (loadAllData connectOk schemaOk true dir
      (loadAllData connectOk schemaOk true dir db).db).db t =
    (loadAllData connectOk schemaOk true dir db).db t := by
  cases connectOk <;> cases schemaOk <;> simp [loadAllData]

/-! ## Rounding bounds -/

theorem abs_round1_sub (x : ℚ) : |round1 x - x| ≤ 1/20 := by
  have h := abs_sub_round (10 * x)
  rw [abs_sub_comm] at h
  have hx : round1 x - x = ((round (10 * x) : ℚ) - 10 * x) / 10 := by
    unfold round1; ring
  rw [hx, abs_div, abs_of_pos (show (0:ℚ) < 10 by norm_num)]
  linarith

theorem abs_round3_sub (x : ℚ) : |round3 x - x| ≤ 1/2000 := by
  have h := abs_sub_round (1000 * x)
  rw [abs_sub_comm] at h
  have hx : round3 x - x = ((round (1000 * x) : ℚ) - 1000 * x) / 1000 := by
    unfold round3; ring
  rw [hx, abs_div, abs_of_pos (show (0:ℚ) < 1000 by norm_num)]
  linarith

theorem round3_pos {p : ℚ} (h : 1/100 ≤ p) : 0 < round3 p := by
  have h3 := abs_round3_sub p
  rw [abs_le] at h3
  linarith [h3.1]

/-- Relates a back-computed attempted value `round1 (m / p)` to the
stored rounded pair `round1 m`, `round3 p`: the quotient of the stored
values is within `1/20 + X` of the stored attempted value, provided `m`
is bounded by `mhi`, `p` is at least `plo`, and `X` satisfies the two
closure conditions below (instantiated with concrete numbers per stat). -/
theorem round_ratio_bound {m p mhi plo X : ℚ} (hm0 : 0 ≤ m) (hmhi : m ≤ mhi)
    (hp1 : plo ≤ p) (hplo : 1/100 ≤ plo) (hX : 0 < X)
    (hkey : mhi/2000 + plo/20 ≤ X * plo * (plo - 1/2000))
    (hmono : X/2000 + 1/20 ≤ 2 * X * plo) :
    |round1 (m / p) - round1 m / round3 p| ≤ 1/20 + X := by
  have hp : 0 < p := by linarith
  have h3 := abs_round3_sub p
  have h2 := abs_round1_sub m
  have h1 := abs_round1_sub (m / p)
  rw [abs_le] at h3 h2
  have hp3lo : p - 1/2000 ≤ round3 p := by linarith [h3.1]
  have hp3pos : 0 < round3 p := by linarith
  have tri := abs_sub_le (round1 (m / p)) (m / p) (round1 m / round3 p)
  have hmain : |m / p - round1 m / round3 p| ≤ X := by
    rw [div_sub_div _ _ (ne_of_gt hp) (ne_of_gt hp3pos), abs_div,
      abs_of_pos (mul_pos hp hp3pos), div_le_iff₀ (mul_pos hp hp3pos)]
    have hnum : |m * round3 p - p * round1 m| ≤ m/2000 + p/20 := by
      have expand : m * round3 p - p * round1 m =
          m * (round3 p - p) + (m - round1 m) * p := by ring
      rw [expand]
      calc |m * (round3 p - p) + (m - round1 m) * p|
          ≤ |m * (round3 p - p)| + |(m - round1 m) * p| := abs_add _ _
        _ ≤ m/2000 + p/20 := by
            rw [abs_mul, abs_mul, abs_of_nonneg hm0, abs_of_pos hp]
            have e1 : |round3 p - p| ≤ 1/2000 := by
              rw [abs_le]; exact ⟨h3.1, h3.2⟩
            have e2 : |m - round1 m| ≤ 1/20 := by
              rw [abs_le]
              constructor <;> linarith [h2.1, h2.2]
            nlinarith [abs_nonneg (round3 p - p), abs_nonneg (m - round1 m)]
    have step1 : m/2000 + p/20 ≤ X * (p * (p - 1/2000)) := by
      have hq1 : 0 ≤ (p - plo) * (2 * X * plo - X/2000 - 1/20) :=
        mul_nonneg (by linarith) (by linarith)
      have hq2 : 0 ≤ X * ((p - plo) * (p - plo)) :=
        mul_nonneg hX.le (mul_self_nonneg _)
      nlinarith [hq1, hq2, hkey, hmhi]
    have step2 : X * (p * (p - 1/2000)) ≤ X * (p * round3 p) := by
      have : p * (p - 1/2000) ≤ p * round3 p :=
        mul_le_mul_of_nonneg_left hp3lo hp.le
      exact mul_le_mul_of_nonneg_left this hX.le
    linarith [hnum, step1, step2]
  linarith [tri, h1, hmain]

/-! ## Bounds on the stat-synthesis tables -/

theorem positionBases_points_bounds (pos : String) :
    11 ≤ (positionBases pos).points ∧ (positionBases pos).points ≤ 14 := by
  unfold positionBases
  split_ifs <;> exact ⟨by norm_num, by norm_num⟩

theorem superstarAdjust_points_cases (name : String) (b : PositionBase) :
    (superstarAdjust name b).points = b.points * 2 ∨
    (superstarAdjust name b).points = b.points * (17/10) ∨
    (superstarAdjust name b).points = b.points * (15/10) ∨
    (superstarAdjust name b).points = b.points * (7/10) ∨
    (superstarAdjust name b).points = b.points := by
  unfold superstarAdjust
  split_ifs <;> simp

theorem base_points_bounds (name pos : String) :
    0 ≤ (superstarAdjust name (positionBases pos)).points ∧
    (superstarAdjust name (positionBases pos)).points ≤ 28 := by
  have hb := positionBases_points_bounds pos
  rcases superstarAdjust_points_cases name (positionBases pos) with h | h | h | h | h <;>
    rw [h] <;> constructor <;> nlinarith [hb.1, hb.2]

theorem effEraMult_points_bounds (era : String) (year : ℕ) :
    0 ≤ (effEraMult era year).points ∧ (effEraMult era year).points ≤ 36/25 := by
  unfold effEraMult eraMultTable
  split_ifs <;> exact ⟨by norm_num, by norm_num⟩

theorem effEraMult_three_bounds (era : String) (year : ℕ) :
    3/10 ≤ (effEraMult era year).three_pct ∧ (effEraMult era year).three_pct ≤ 8/10 := by
  unfold effEraMult eraMultTable
  split_ifs <;> exact ⟨by norm_num, by norm_num⟩

theorem points_val_bounds (name pos era : String) (year : ℕ) {j : ℚ}
    (hj1 : 8/10 ≤ j) (hj2 : j ≤ 14/10) :
    1/10 ≤ max (1/10) ((superstarAdjust name (positionBases pos)).points *
        (effEraMult era year).points * j) ∧
    max (1/10) ((superstarAdjust name (positionBases pos)).points *
        (effEraMult era year).points * j) ≤ 7056/125 := by
  have hb := base_points_bounds name pos
  have he := effEraMult_points_bounds era year
  refine ⟨le_max_left _ _, max_le (by norm_num) ?_⟩
  nlinarith [hb.1, hb.2, he.1, he.2, hj1, hj2,
    mul_nonneg hb.1 he.1, mul_nonneg (mul_nonneg hb.1 he.1) (by linarith : (0:ℚ) ≤ j)]

/-! ## Claim C3: call independence of the stat synthesiser -/

/-- The arguments of one `_generate_era_appropriate_stats` call together
with its random draws. -/
structure GenCall where
  playerName : String
  position : String
  year : ℕ
  era : String
  draws : StatDraws

/-- A sequence of synthesiser calls on one ingester instance.  The
`position_bases` and `era_multipliers` dicts are local literals rebuilt
on every call in the source, so the only state threaded between calls is
none at all: the trace is a pure map. -/
def runGen (calls : List GenCall) : List Stats :=
  calls.map (fun c => genStats c.playerName c.position c.year c.era c.draws)

/-- Claim C3: the base-stat and era-multiplier tables are call-local, so
the result of a call after ANY history equals the history-free result of
the same arguments and draws; and for `year >= 2020` the effective
points multiplier is the era table's points entry times exactly one
factor of `1.2` (with the three-point rate set to `0.8`). -/
theorem C3_stats_calls_independent_and_points_boost
    (history : List GenCall) (c : GenCall) (era : String) (year : ℕ)
    (hy : 2020 ≤ year) :
    (runGen (history ++ [c])).getLast? =
      some (genStats c.playerName c.position c.year c.era c.draws) ∧
    (effEraMult era year).points = (eraMultTable era).points * (12/10) ∧
    (effEraMult era year).three_pct = 8/10 := by
  refine ⟨?_, ?_, ?_⟩
  · simp [runGen]
  · simp [effEraMult, if_pos hy]
  · simp [effEraMult, if_pos hy]

/-- A concrete draw record (all raw draws zero, all uniforms at range
midpoints or simple in-range values). -/
def statDraws0 : StatDraws :=
  ⟨0, 0, 30, 1, 1, 1, 1/2, 3/10, 4/5, 1, 1, 2, 2⟩

/-- A concrete synthesiser call. -/
def genCall0 : GenCall := ⟨"LeBron James", "SF", 2021, "2020s", statDraws0⟩

theorem C3_witness :
    (runGen ([genCall0] ++ [genCall0])).getLast? =
      some (genStats "LeBron James" "SF" 2021 "2020s" statDraws0) ∧
    (effEraMult "2020s" 2021).points = (eraMultTable "2020s").points * (12/10) ∧
    (effEraMult "2020s" 2021).three_pct = 8/10 :=
  C3_stats_calls_independent_and_points_boost [genCall0] genCall0 "2020s" 2021
    (by norm_num)

/-! ## Claim C7: percentages and back-computed attempts -/

set_option maxHeartbeats 1000000 in
/-- Claim C7: in every generated stat row the three shooting percentages
are strictly positive, and each attempted value agrees with the
corresponding made value divided by the corresponding percentage within
the tolerance induced by the 1-decimal rounding of made/attempted and
the 3-decimal rounding of the percentage (bounds `1/4`, `3/2`, `3/20`
derived from the uniform ranges of the draws). -/
theorem C7_percentages_positive_attempted_consistent
    (name pos era : String) (year : ℕ) (d : StatDraws) (hv : d.Valid) :
    0 < (genStats name pos year era d).field_goal_percentage ∧
    0 < (genStats name pos year era d).three_point_percentage ∧
    0 < (genStats name pos year era d).free_throw_percentage ∧
    |(genStats name pos year era d).field_goals_attempted -
      (genStats name pos year era d).field_goals_made /
        (genStats name pos year era d).field_goal_percentage| ≤ 1/4 ∧
    |(genStats name pos year era d).three_pointers_attempted -
      (genStats name pos year era d).three_pointers_made /
        (genStats name pos year era d).three_point_percentage| ≤ 3/2 ∧
    |(genStats name pos year era d).free_throws_attempted -
      (genStats name pos year era d).free_throws_made /
        (genStats name pos year era d).free_throw_percentage| ≤ 3/20 := by
  obtain ⟨hm1, hm2, hpj1, hpj2, ha1, ha2, hr1, hr2, hfg1, hfg2, h3b1, h3b2,
    hft1, hft2, hs1, hs2, hb1, hb2, ht1, ht2, hpf1, hpf2⟩ := hv
  have hPb := points_val_bounds name pos era year hpj1 hpj2
  have h3e := effEraMult_three_bounds era year
  have hp3lo : 3/40 ≤ d.threeBase * (effEraMult era year).three_pct := by
    nlinarith [h3e.1, h3e.2]
  simp only [genStats]
  refine ⟨?_, ?_, ?_, ?_, ?_, ?_⟩
  · exact round3_pos (by linarith)
  · exact round3_pos (by linarith)
  · exact round3_pos (by linarith)
  · have hfg := @round_ratio_bound
      (max (1/10 : ℚ) ((superstarAdjust name (positionBases pos)).points *
        (effEraMult era year).points * d.ptsJit) * (38/100))
      d.fgPct (67032/3125) (2/5) (1/5)
      (by linarith [hPb.1]) (by linarith [hPb.2]) (by linarith)
      (by norm_num) (by norm_num) (by norm_num) (by norm_num)
    calc _ ≤ (1/20 : ℚ) + 1/5 := hfg
      _ ≤ 1/4 := by norm_num
  · have h3p := @round_ratio_bound
      (max (1/10 : ℚ) ((superstarAdjust name (positionBases pos)).points *
        (effEraMult era year).points * d.ptsJit) * (15/100))
      (d.threeBase * (effEraMult era year).three_pct) (5292/625) (3/40) (29/20)
      (by linarith [hPb.1]) (by linarith [hPb.2]) (by linarith)
      (by norm_num) (by norm_num) (by norm_num) (by norm_num)
    calc _ ≤ (1/20 : ℚ) + 29/20 := h3p
      _ ≤ 3/2 := by norm_num
  · have hft := @round_ratio_bound
      (max (1/10 : ℚ) ((superstarAdjust name (positionBases pos)).points *
        (effEraMult era year).points * d.ptsJit) * (22/100))
      d.ftPct (38808/3125) (7/10) (1/10)
      (by linarith [hPb.1]) (by linarith [hPb.2]) (by linarith)
      (by norm_num) (by norm_num) (by norm_num) (by norm_num)
    calc _ ≤ (1/20 : ℚ) + 1/10 := hft
      _ ≤ 3/20 := by norm_num

theorem C7_witness :
    0 < (genStats "Alex Johnson" "PG" 1995 "regular" statDraws0).field_goal_percentage ∧
    0 < (genStats "Alex Johnson" "PG" 1995 "regular" statDraws0).three_point_percentage ∧
    0 < (genStats "Alex Johnson" "PG" 1995 "regular" statDraws0).free_throw_percentage ∧
    |(genStats "Alex Johnson" "PG" 1995 "regular" statDraws0).field_goals_attempted -
      (genStats "Alex Johnson" "PG" 1995 "regular" statDraws0).field_goals_made /
        (genStats "Alex Johnson" "PG" 1995 "regular" statDraws0).field_goal_percentage| ≤ 1/4 ∧
    |(genStats "Alex Johnson" "PG" 1995 "regular" statDraws0).three_pointers_attempted -
      (genStats "Alex Johnson" "PG" 1995 "regular" statDraws0).three_pointers_made /
        (genStats "Alex Johnson" "PG" 1995 "regular" statDraws0).three_point_percentage| ≤ 3/2 ∧
    |(genStats "Alex Johnson" "PG" 1995 "regular" statDraws0).free_throws_attempted -
      (genStats "Alex Johnson" "PG" 1995 "regular" statDraws0).free_throws_made /
        (genStats "Alex Johnson" "PG" 1995 "regular" statDraws0).free_throw_percentage| ≤ 3/20 :=
  C7_percentages_positive_attempted_consistent "Alex Johnson" "PG" "regular" 1995
    statDraws0 (by norm_num [StatDraws.Valid, statDraws0])

/-! ## Claim C5: season-string format -/

/-- Claim C5 counterexample: the generation run with start=end=100
produces the single season string `"100-1"`, because `str(101)[2:]` is
`"1"`, not the zero-padded two-digit `"01"` the claim asserts for every
run; the claimed format only matches when `year+1` has four digits. -/
theorem C5_counterexample :
    seasonsList 100 100 = [seasonString 100] ∧
    seasonString 100 = "100-1" ∧
    claimedSeasonString 100 = "100-01" ∧
    seasonString 100 ≠ claimedSeasonString 100 := by
  decide

/-- Claim C5 (amended): for every generation run and every year in
`[start, end]` whose successor has four digits (`999 ≤ year ≤ 9998`, in
particular the whole NBA range 1980-2025), the produced season string
equals `"{year}-{(year+1) mod 100:02d}"` (e.g. 1999 yields "1999-00"). -/
theorem C5_season_format_four_digit_years (startYear endYear year : ℕ)
    (h1 : startYear ≤ year) (h2 : year ≤ endYear)
    (h3 : 999 ≤ year) (h4 : year ≤ 9998) :
    seasonString year ∈ seasonsList startYear endYear ∧
    seasonString year = claimedSeasonString year := by
  constructor
  · simp only [seasonsList, List.mem_map]
    refine ⟨year, ?_, rfl⟩
    rw [yearRange, List.mem_range'_1]
    omega
  · exact seasonString_eq_claimed h3 h4

theorem C5_witness :
    (seasonString 1999 ∈ seasonsList 1999 1999 ∧
      seasonString 1999 = claimedSeasonString 1999) ∧
    seasonString 1999 = "1999-00" :=
  ⟨C5_season_format_four_digit_years 1999 1999 1999 (by norm_num) (by norm_num)
      (by norm_num) (by norm_num),
    by decide⟩

/-! ## Fold and deduplication lemmas for the generation loop -/

theorem foldl_teams_fix {β : Type} (f : GenSt → β → GenSt)
    (hf : ∀ st x, (f st x).teams = st.teams) :
    ∀ (l : List β) (st : GenSt), (l.foldl f st).teams = st.teams := by
  intro l
  induction l with
  | nil => intro st; rfl
  | cons x xs ih => intro st; rw [List.foldl_cons, ih, hf]

theorem foldl_players_ext {β : Type} (f : GenSt → β → GenSt)
    (hf : ∀ st x, ∃ a, (f st x).players = st.players ++ a) :
    ∀ (l : List β) (st : GenSt), ∃ a, (l.foldl f st).players = st.players ++ a := by
  intro l
  induction l with
  | nil => intro st; exact ⟨[], by simp⟩
  | cons x xs ih =>
    intro st
    obtain ⟨a1, ha1⟩ := hf st x
    obtain ⟨a2, ha2⟩ := ih (f st x)
    exact ⟨a1 ++ a2, by rw [List.foldl_cons, ha2, ha1, List.append_assoc]⟩

theorem foldl_inv {β : Type} (P : GenSt → Prop) (f : GenSt → β → GenSt)
    (hf : ∀ st x, P st → P (f st x)) :
    ∀ (l : List β) (st : GenSt), P st → P (l.foldl f st) := by
  intro l
  induction l with
  | nil => intro st h; exact h
  | cons x xs ih => intro st h; exact ih (f st x) (hf st x h)

theorem addLegend_teams (d : Draws) (season : String) (year : ℕ)
    (tAll : List TeamRow) (st : GenSt) (leg : LegendInfo) :
    (addLegend d season year tAll st leg).teams = st.teams := by
  simp only [addLegend]
  split <;> rfl

theorem addExtra_teams (d : Draws) (season : String) (year : ℕ)
    (tAll : List TeamRow) (eraKeys : List String) (st : GenSt) (i : ℕ) :
    (addExtra d season year tAll eraKeys st i).teams = st.teams := by
  simp only [addExtra]
  split <;> rfl

theorem addLegend_players_ext (d : Draws) (season : String) (year : ℕ)
    (tAll : List TeamRow) (st : GenSt) (leg : LegendInfo) :
    ∃ a, (addLegend d season year tAll st leg).players = st.players ++ a := by
  simp only [addLegend]
  split
  · exact ⟨[], by simp⟩
  · exact ⟨_, rfl⟩

theorem addExtra_players_ext (d : Draws) (season : String) (year : ℕ)
    (tAll : List TeamRow) (eraKeys : List String) (st : GenSt) (i : ℕ) :
    ∃ a, (addExtra d season year tAll eraKeys st i).players = st.players ++ a := by
  simp only [addExtra]
  split
  · exact ⟨[], by simp⟩
  · exact ⟨_, rfl⟩

theorem processSeason_teams (d : Draws) (st : GenSt) (year : ℕ) :
    (processSeason d st year).teams =
      st.teams ++ mkTeamRows (seasonString year) st.teamCounter (getTeamsForEra year) := by
  unfold processSeason
  rw [foldl_teams_fix _ (fun st2 i => addExtra_teams d _ year _ _ st2 i)]
  rw [foldl_teams_fix _ (fun st2 leg => addLegend_teams d _ year _ st2 leg)]

theorem processSeason_players_ext (d : Draws) (st : GenSt) (year : ℕ) :
    ∃ a, (processSeason d st year).players = st.players ++ a := by
  unfold processSeason
  obtain ⟨a1, ha1⟩ := foldl_players_ext _
    (fun st2 leg => addLegend_players_ext d _ year _ st2 leg)
    (getPlayersForEra year)
    ({ st with
        teams := st.teams ++ mkTeamRows (seasonString year) st.teamCounter (getTeamsForEra year)
        teamCounter := st.teamCounter + (getTeamsForEra year).length })
  obtain ⟨a2, ha2⟩ := foldl_players_ext _
    (fun st2 i => addExtra_players_ext d _ year _ _ st2 i)
    (List.range (randint 40 80 (d.numExtraRaw year))) _
  exact ⟨a1 ++ a2, by rw [ha2, ha1]; simp [List.append_assoc]⟩

theorem dropDupsBy_sublist {κ : Type} [DecidableEq κ] (key : α → κ) :
    ∀ (l : List α) (seen : List κ), (dropDupsBy key l seen).Sublist l := by
  intro l
  induction l with
  | nil => intro seen; simp [dropDupsBy]
  | cons x xs ih =>
    intro seen
    rw [dropDupsBy]
    split
    · exact (ih seen).cons x
    · exact (ih (key x :: seen)).cons₂ x

theorem dropDupsBy_mem {κ : Type} [DecidableEq κ] (key : α → κ)
    (l : List α) (seen : List κ) {x : α} (h : x ∈ dropDupsBy key l seen) : x ∈ l :=
  (dropDupsBy_sublist key l seen).mem h

theorem dropDupsBy_key_surv {κ : Type} [DecidableEq κ] (key : α → κ) :
    ∀ (l : List α) (seen : List κ) (x : α), x ∈ l → key x ∉ seen →
      ∃ x2 ∈ dropDupsBy key l seen, key x2 = key x := by
  intro l
  induction l with
  | nil => intro seen x hx; simp at hx
  | cons y ys ih =>
    intro seen x hx hseen
    rw [dropDupsBy]
    rcases List.mem_cons.1 hx with rfl | hx2
    · split
      · next hky => exact absurd hky hseen
      · exact ⟨x, by simp⟩
    · split
      · next hky => exact ih seen x hx2 hseen
      · next hky =>
        by_cases hkxy : key x = key y
        · exact ⟨y, by simp, hkxy.symm⟩
        · obtain ⟨x2, hx2m, hx2k⟩ := ih (key y :: seen) x hx2
            (by simp [hkxy, hseen])
          exact ⟨x2, by simp [hx2m], hx2k⟩

theorem mkTeamRows_mem (season : String) :
    ∀ (tid : ℕ) (l : List (String × TeamInfo)) (t : TeamRow),
      t ∈ mkTeamRows season tid l →
      t.season = season ∧ ∃ e ∈ l, t.team_abbreviation = e.1 ∧ t.team_name = e.2.name := by
  intro tid l
  induction l generalizing tid with
  | nil => intro t ht; simp [mkTeamRows] at ht
  | cons e rest ih =>
    intro t ht
    obtain ⟨ab, info⟩ := e
    rw [mkTeamRows] at ht
    rcases List.mem_cons.1 ht with rfl | ht2
    · exact ⟨rfl, (ab, info), by simp⟩
    · obtain ⟨hs, e2, he2, hab⟩ := ih (tid + 1) t ht2
      exact ⟨hs, e2, by simp [he2], hab⟩

theorem mkTeamRows_pairwise_ab (season : String) :
    ∀ (tid : ℕ) (l : List (String × TeamInfo)), (l.map Prod.fst).Nodup →
      (mkTeamRows season tid l).Pairwise
        (fun a b => a.team_abbreviation ≠ b.team_abbreviation) := by
  intro tid l
  induction l generalizing tid with
  | nil => intro _; simp [mkTeamRows]
  | cons e rest ih =>
    intro hnd
    obtain ⟨ab, info⟩ := e
    simp only [List.map_cons, List.nodup_cons] at hnd
    rw [mkTeamRows]
    refine List.Pairwise.cons ?_ (ih (tid + 1) hnd.2)
    intro b hb
    obtain ⟨_, e2, he2, hab, _⟩ := mkTeamRows_mem season (tid + 1) rest b hb
    intro hcontra
    apply hnd.1
    have hcontra2 : ab = b.team_abbreviation := hcontra
    rw [hcontra2, hab]
    exact List.mem_map_of_mem Prod.fst he2

theorem getTeamsForEra_keys_nodup (year : ℕ) :
    ((getTeamsForEra year).map Prod.fst).Nodup := by
  unfold getTeamsForEra
  split <;> decide

theorem findTeamId_some {teams : List TeamRow} {ab season : String} {tid : ℕ}
    (h : findTeamId teams ab season = some tid) :
    ∃ t ∈ teams, t.team_id = tid ∧ t.team_abbreviation = ab ∧ t.season = season := by
  unfold findTeamId at h
  rcases hf : teams.find? (fun t => t.team_abbreviation == ab && t.season == season) with
    _ | t
  · rw [hf] at h; simp at h
  · rw [hf] at h
    simp only [Option.some.injEq] at h
    have hmem := List.mem_of_find?_eq_some hf
    have hpred := List.find?_some hf
    simp only [Bool.and_eq_true, beq_iff_eq] at hpred
    exact ⟨t, hmem, h, hpred.1, hpred.2⟩

/-! ## Claim C8: (abbreviation, season) uniqueness of team rows -/

theorem yearRange_nodup (s e : ℕ) : (yearRange s e).Nodup := by
  rw [yearRange]
  exact List.nodup_range' _ _ _ (by norm_num)

theorem gen_teams_distinct (d : Draws) :
    ∀ (ys : List ℕ) (st : GenSt),
      ys.Nodup →
      st.teams.Pairwise
        (fun a b => ¬(a.team_abbreviation = b.team_abbreviation ∧ a.season = b.season)) →
      (∀ t ∈ st.teams, ∀ y ∈ ys, t.season ≠ seasonString y) →
      (ys.foldl (processSeason d) st).teams.Pairwise
        (fun a b => ¬(a.team_abbreviation = b.team_abbreviation ∧ a.season = b.season)) := by
  intro ys
  induction ys with
  | nil => intro st _ hp _; exact hp
  | cons y ys ih =>
    intro st hnd hp hfresh
    rw [List.foldl_cons]
    have hnd2 := List.nodup_cons.1 hnd
    apply ih _ hnd2.2
    · rw [processSeason_teams, List.pairwise_append]
      refine ⟨hp, ?_, ?_⟩
      · refine List.Pairwise.imp ?_
          (mkTeamRows_pairwise_ab (seasonString y) st.teamCounter (getTeamsForEra y)
            (getTeamsForEra_keys_nodup y))
        intro a b hab hcon
        exact hab hcon.1
      · intro a ha b hb
        obtain ⟨hbs, _⟩ := mkTeamRows_mem (seasonString y) st.teamCounter (getTeamsForEra y) b hb
        intro hcon
        exact hfresh a ha y (List.mem_cons_self y ys) (hcon.2.trans hbs)
    · intro t ht y2 hy2
      rw [processSeason_teams] at ht
      rcases List.mem_append.1 ht with ht1 | ht2
      · exact hfresh t ht1 y2 (List.mem_cons_of_mem y hy2)
      · obtain ⟨hts, _⟩ := mkTeamRows_mem (seasonString y) st.teamCounter (getTeamsForEra y) t ht2
        rw [hts]
        intro hcontra
        have heq : y = y2 := seasonString_injective hcontra
        exact hnd2.1 (heq ▸ hy2)

/-- Claim C8: over all emitted team rows of a generation run, no two
distinct rows share both team abbreviation and season: within a season
the team-dict keys are distinct, and distinct years yield distinct
season strings. -/
theorem C8_team_abbrev_season_unique (startYear endYear : ℕ) (d : Draws) :
    (generateData startYear endYear d).teams.Pairwise
      (fun a b => ¬(a.team_abbreviation = b.team_abbreviation ∧ a.season = b.season)) := by
  have hraw := gen_teams_distinct d (yearRange startYear endYear) ⟨1, 1, [], [], []⟩
    (yearRange_nodup startYear endYear) (by simp) (by simp)
  exact hraw.sublist (dropDupsBy_sublist _ _ _)

/-! ## Claim C9: player rows reference a team of the same season -/

/-- The player's team reference resolves within `teams` for the player's
own season. -/
def RefOk (teams : List TeamRow) (p : PlayerRow) : Prop :=
  ∃ t ∈ teams, t.team_id = p.team_id ∧ t.season = p.season

theorem RefOk_append (teams ext : List TeamRow) (p : PlayerRow)
    (h : RefOk teams p) : RefOk (teams ++ ext) p := by
  obtain ⟨t, ht, h2⟩ := h
  exact ⟨t, List.mem_append_left _ ht, h2⟩

theorem addLegend_ref (d : Draws) (season : String) (year : ℕ)
    (tAll : List TeamRow) (st : GenSt) (leg : LegendInfo)
    (h : st.teams = tAll ∧ ∀ p ∈ st.players, RefOk tAll p) :
    (addLegend d season year tAll st leg).teams = tAll ∧
    ∀ p ∈ (addLegend d season year tAll st leg).players, RefOk tAll p := by
  refine ⟨(addLegend_teams d season year tAll st leg).trans h.1, ?_⟩
  simp only [addLegend]
  split
  · exact h.2
  · rename_i tid heq
    intro p hp
    rcases List.mem_append.1 hp with hp1 | hp2
    · exact h.2 p hp1
    · simp only [List.mem_singleton] at hp2
      subst hp2
      obtain ⟨t, ht, htid, _, hts⟩ := findTeamId_some heq
      exact ⟨t, ht, htid, hts⟩

theorem addExtra_ref (d : Draws) (season : String) (year : ℕ)
    (tAll : List TeamRow) (eraKeys : List String) (st : GenSt) (i : ℕ)
    (h : st.teams = tAll ∧ ∀ p ∈ st.players, RefOk tAll p) :
    (addExtra d season year tAll eraKeys st i).teams = tAll ∧
    ∀ p ∈ (addExtra d season year tAll eraKeys st i).players, RefOk tAll p := by
  refine ⟨(addExtra_teams d season year tAll eraKeys st i).trans h.1, ?_⟩
  simp only [addExtra]
  split
  · exact h.2
  · rename_i tid heq
    intro p hp
    rcases List.mem_append.1 hp with hp1 | hp2
    · exact h.2 p hp1
    · simp only [List.mem_singleton] at hp2
      subst hp2
      obtain ⟨t, ht, htid, _, hts⟩ := findTeamId_some heq
      exact ⟨t, ht, htid, hts⟩

theorem processSeason_ref (d : Draws) (st : GenSt) (y : ℕ)
    (h : ∀ p ∈ st.players, RefOk st.teams p) :
    ∀ p ∈ (processSeason d st y).players, RefOk (processSeason d st y).teams p := by
  rw [processSeason_teams]
  have hps : processSeason d st y =
      (List.range (randint 40 80 (d.numExtraRaw y))).foldl
        (addExtra d (seasonString y) y
          (st.teams ++ mkTeamRows (seasonString y) st.teamCounter (getTeamsForEra y))
          ((getTeamsForEra y).map Prod.fst))
        ((getPlayersForEra y).foldl
          (addLegend d (seasonString y) y
            (st.teams ++ mkTeamRows (seasonString y) st.teamCounter (getTeamsForEra y)))
          { st with
              teams := st.teams ++ mkTeamRows (seasonString y) st.teamCounter (getTeamsForEra y)
              teamCounter := st.teamCounter + (getTeamsForEra y).length }) := rfl
  rw [hps]
  have hinit : ∀ p ∈ st.players,
      RefOk (st.teams ++ mkTeamRows (seasonString y) st.teamCounter (getTeamsForEra y)) p :=
    fun p hp => RefOk_append _ _ p (h p hp)
  have key := foldl_inv
    (fun s => s.teams =
        st.teams ++ mkTeamRows (seasonString y) st.teamCounter (getTeamsForEra y) ∧
      ∀ p ∈ s.players,
        RefOk (st.teams ++ mkTeamRows (seasonString y) st.teamCounter (getTeamsForEra y)) p)
    (addExtra d (seasonString y) y
      (st.teams ++ mkTeamRows (seasonString y) st.teamCounter (getTeamsForEra y))
      ((getTeamsForEra y).map Prod.fst))
    (fun s i hP => addExtra_ref d (seasonString y) y _ _ s i hP)
    (List.range (randint 40 80 (d.numExtraRaw y)))
    ((getPlayersForEra y).foldl
      (addLegend d (seasonString y) y
        (st.teams ++ mkTeamRows (seasonString y) st.teamCounter (getTeamsForEra y)))
      { st with
          teams := st.teams ++ mkTeamRows (seasonString y) st.teamCounter (getTeamsForEra y)
          teamCounter := st.teamCounter + (getTeamsForEra y).length })
    (foldl_inv _
      (addLegend d (seasonString y) y
        (st.teams ++ mkTeamRows (seasonString y) st.teamCounter (getTeamsForEra y)))
      (fun s leg hP => addLegend_ref d (seasonString y) y _ s leg hP)
      (getPlayersForEra y) _ ⟨rfl, hinit⟩)
  exact key.2

theorem generateRaw_ref (startYear endYear : ℕ) (d : Draws) :
    ∀ p ∈ (generateRaw startYear endYear d).players,
      RefOk (generateRaw startYear endYear d).teams p :=
  foldl_inv (fun s => ∀ p ∈ s.players, RefOk s.teams p) (processSeason d)
    (fun st y hP => processSeason_ref d st y hP)
    (yearRange startYear endYear) ⟨1, 1, [], [], []⟩ (by simp)

/-- Claim C9: every emitted player row's `team_id` resolves to an
emitted team row of the same season. -/
theorem C9_player_team_ref_same_season (startYear endYear : ℕ) (d : Draws)
    (p : PlayerRow) (hp : p ∈ (generateData startYear endYear d).players) :
    ∃ t ∈ (generateData startYear endYear d).teams,
      t.team_id = p.team_id ∧ t.season = p.season := by
  simp only [generateData] at hp ⊢
  have hp2 : p ∈ (generateRaw startYear endYear d).players :=
    dropDupsBy_mem _ _ _ hp
  obtain ⟨t, ht, htid, hts⟩ := generateRaw_ref startYear endYear d p hp2
  obtain ⟨t2, ht2, hk⟩ := dropDupsBy_key_surv (fun t => (t.team_id, t.season))
    (generateRaw startYear endYear d).teams [] t ht (by simp)
  simp only [Prod.mk.injEq] at hk
  exact ⟨t2, ht2, hk.1.trans htid, hk.2.trans hts⟩

/-! ## Claim C6: the start=end=2020 run -/

/-- All-zero attribute draws. -/
def trivAttr : AttrDraws := ⟨0, 0, 0, 0, 0, 0, 0, 0, 0, 0⟩

/-- A concrete all-zero draw source. -/
def trivDraws : Draws :=
  ⟨fun _ => 0, fun _ => trivAttr, fun _ => statDraws0, fun _ _ => ⟨0, 0, 0, 0⟩⟩

theorem generateRaw_2020_players (d : Draws) :
    ∃ rest, (generateRaw 2020 2020 d).players =
      mkPlayerRow (d.attr 1) 1 "LeBron James" 14 "LAL" "SF" 22 38 2020
        (seasonString 2020) :: rest := by
  have hgen : generateRaw 2020 2020 d =
      (List.range (randint 40 80 (d.numExtraRaw 2020))).foldl
        (addExtra d (seasonString 2020) 2020
          (mkTeamRows (seasonString 2020) 1 modernTeams) (modernTeams.map Prod.fst))
        (legendary2020s.foldl
          (addLegend d (seasonString 2020) 2020
            (mkTeamRows (seasonString 2020) 1 modernTeams))
          ⟨31, 1, mkTeamRows (seasonString 2020) 1 modernTeams, [], []⟩) := rfl
  have hab : getTeamForPlayer "LeBron James" ["LAL"] 2020 = "LAL" := by decide
  have hfind : findTeamId (mkTeamRows (seasonString 2020) 1 modernTeams) "LAL"
      (seasonString 2020) = some 14 := by decide
  have hstep : (addLegend d (seasonString 2020) 2020
      (mkTeamRows (seasonString 2020) 1 modernTeams)
      ⟨31, 1, mkTeamRows (seasonString 2020) 1 modernTeams, [], []⟩
      ⟨"LeBron James", "SF", ["LAL"], "2020s"⟩).players =
      [mkPlayerRow (d.attr 1) 1 "LeBron James" 14 "LAL" "SF" 22 38 2020
        (seasonString 2020)] := by
    simp only [addLegend, hab, hfind, List.nil_append]
  have hfold1 : legendary2020s.foldl
      (addLegend d (seasonString 2020) 2020
        (mkTeamRows (seasonString 2020) 1 modernTeams))
      ⟨31, 1, mkTeamRows (seasonString 2020) 1 modernTeams, [], []⟩ =
      legendary2020s.tail.foldl
        (addLegend d (seasonString 2020) 2020
          (mkTeamRows (seasonString 2020) 1 modernTeams))
        (addLegend d (seasonString 2020) 2020
          (mkTeamRows (seasonString 2020) 1 modernTeams)
          ⟨31, 1, mkTeamRows (seasonString 2020) 1 modernTeams, [], []⟩
          ⟨"LeBron James", "SF", ["LAL"], "2020s"⟩) := rfl
  obtain ⟨a2, ha2⟩ := foldl_players_ext _
    (fun st leg => addLegend_players_ext d (seasonString 2020) 2020
      (mkTeamRows (seasonString 2020) 1 modernTeams) st leg)
    legendary2020s.tail
    (addLegend d (seasonString 2020) 2020
      (mkTeamRows (seasonString 2020) 1 modernTeams)
      ⟨31, 1, mkTeamRows (seasonString 2020) 1 modernTeams, [], []⟩
      ⟨"LeBron James", "SF", ["LAL"], "2020s"⟩)
  obtain ⟨a3, ha3⟩ := foldl_players_ext _
    (fun st i => addExtra_players_ext d (seasonString 2020) 2020
      (mkTeamRows (seasonString 2020) 1 modernTeams) (modernTeams.map Prod.fst) st i)
    (List.range (randint 40 80 (d.numExtraRaw 2020)))
    (legendary2020s.foldl
      (addLegend d (seasonString 2020) 2020
        (mkTeamRows (seasonString 2020) 1 modernTeams))
      ⟨31, 1, mkTeamRows (seasonString 2020) 1 modernTeams, [], []⟩)
  refine ⟨a2 ++ a3, ?_⟩
  rw [hgen, ha3, hfold1, ha2, hstep]
  simp

/-- Claim C6: generating with start=2020 and end=2020 yields exactly
one season "2020-21"; the team rows come entirely from the modern team
table and number exactly 30; and the player output contains a LeBron
James record assigned to "LAL". -/
theorem C6_run_2020 (d : Draws) :
    seasonsList 2020 2020 = ["2020-21"] ∧
    (generateData 2020 2020 d).teams.length = 30 ∧
    (∀ t ∈ (generateData 2020 2020 d).teams, t.season = "2020-21" ∧
      ∃ e ∈ modernTeams, t.team_abbreviation = e.1 ∧ t.team_name = e.2.name) ∧
    ∃ p ∈ (generateData 2020 2020 d).players,
      p.player_name = "LeBron James" ∧ p.team_abbreviation = "LAL" := by
  have hteams : (generateData 2020 2020 d).teams =
      dropDupsBy (fun t => (t.team_id, t.season))
        (mkTeamRows (seasonString 2020) 1 modernTeams) [] := by
    simp only [generateData]
    have hraw : (generateRaw 2020 2020 d).teams =
        mkTeamRows (seasonString 2020) 1 modernTeams := by
      have h1 : generateRaw 2020 2020 d =
          processSeason d ⟨1, 1, [], [], []⟩ 2020 := rfl
      rw [h1, processSeason_teams]
      rfl
    rw [hraw]
  refine ⟨by decide, ?_, ?_, ?_⟩
  · rw [hteams]
    decide
  · rw [hteams]
    decide
  · obtain ⟨rest, hrest⟩ := generateRaw_2020_players d
    refine ⟨mkPlayerRow (d.attr 1) 1 "LeBron James" 14 "LAL" "SF" 22 38 2020
      (seasonString 2020), ?_, rfl, rfl⟩
    simp only [generateData]
    rw [hrest, dropDupsBy, if_neg (by simp)]
    exact List.mem_cons_self _ _

/-- The LeBron James player row of the all-zero-draw 2020 run. -/
def lebronRow0 : PlayerRow :=
  mkPlayerRow trivAttr 1 "LeBron James" 14 "LAL" "SF" 22 38 2020 "2020-21"

theorem C9_witness :
    ∃ t ∈ (generateData 2020 2020 trivDraws).teams,
      t.team_id = lebronRow0.team_id ∧ t.season = lebronRow0.season :=
  C9_player_team_ref_same_season 2020 2020 trivDraws lebronRow0 (by decide)
